import Mathlib

/-!
Shallow embedding of the asset-linked record lifecycle of the kayease
content server: the Cloudinary identifier resolver, the per-record-type
create/update/delete handlers (blogs, team, portfolio) and the portfolio
bulk delete, together with theorems about the consistency policies.

The remote asset store is modelled as an oracle `String → CloudResult`
giving, for each public id, either the returned outcome string or a
thrown transport error.  Each handler is a pure function of the oracle,
the database (an association list keyed by record id) and the request;
it returns the HTTP status, the new database state, and an ordered trace
of the events it performed (remote delete calls, record saves, record
removals).
-/

namespace Kayease

/-- Result of one `cloudinary.uploader.destroy` / `deleteImage` call:
either a returned `{result: ...}` value or a thrown transport error. -/
inductive CloudResult where
  | ret (result : String)
  | exn
deriving DecidableEq, Repr

/-- The remote asset store: the outcome of deleting each public id. -/
abbrev Oracle := String → CloudResult

/-- Observable events of a handler, in execution order. -/
inductive Event where
  | delCall (publicId : String) (res : CloudResult)
  | save (id : Nat)
  | removeRecord (id : Nat)
  | removeMany (ids : List Nat)
deriving DecidableEq, Repr

/-- Holds (as `true`) unless the event is a remote delete call with an empty id. -/
def Event.callHasNonEmptyId : Event → Bool
  | .delCall p _ => p ≠ ""
  | _ => true

/-- The public ids of the remote delete calls of a trace, in order. -/
def callPids (tr : List Event) : List String :=
  tr.filterMap fun e =>
    match e with
    | .delCall p _ => some p
    | _ => none

/-! ### Document store primitives (per-call atomic, as in §6 of the spec) -/

/-- Embeds `Model.findById`. -/
def findById {α : Type} (db : List (Nat × α)) (id : Nat) : Option α :=
  (db.find? fun p => p.1 = id).map (·.2)

/-- Embeds `Model.findByIdAndDelete` (the state part). -/
def removeById {α : Type} (db : List (Nat × α)) (id : Nat) : List (Nat × α) :=
  db.filter fun p => p.1 ≠ id

/-- Embeds `document.save()` after mutating a loaded record in place. -/
def saveById {α : Type} (db : List (Nat × α)) (id : Nat) (r : α) :
    List (Nat × α) :=
  db.map fun p => if p.1 = id then (id, r) else p

/-- Embeds the state part of deleteMany filtering ids by membership. -/
def removeManyByIds {α : Type} (db : List (Nat × α)) (ids : List Nat) :
    List (Nat × α) :=
  db.filter fun p => p.1 ∉ ids

/-- Gives the `deletedCount` of the same deleteMany call. -/
def countManyByIds {α : Type} (db : List (Nat × α)) (ids : List Nat) : Nat :=
  (db.filter fun p => p.1 ∈ ids).length

/-! ### Identifier resolver (`extractPublicIdFromUrl`)

Two copies exist in the source, one in the portfolio routes (with an
explicit `typeof url !== 'string'` guard) and one in the blog routes
(relying on its `try/catch` to absorb the `TypeError` a non-string
input raises).  Both share the same body, embedded as
`extractPublicIdCore`. -/

/-- A JavaScript value passed where a URL string is expected: either an
actual string or some non-string value (null, undefined, a number, ...). -/
inductive JSVal where
  | str (s : String)
  | nonString
deriving DecidableEq, Repr

/-- Character-level splitter, auxiliary to `splitChar`. -/
def splitCharAux (sep : Char) : List Char → List Char → List String
  | [], acc => [acc.reverse.asString]
  | c :: cs, acc =>
    if c = sep then acc.reverse.asString :: splitCharAux sep cs []
    else splitCharAux sep cs (c :: acc)

/-- Embeds the JS `url.split('/')` for a single-character separator:
empty segments between, before and after separators are kept, and the
empty string splits to `[""]`. -/
def splitChar (sep : Char) (s : String) : List String :=
  splitCharAux sep s.toList []

/-- Embeds the JS `String.prototype.trim`: strip whitespace from both
ends. -/
def jsTrim (s : String) : String :=
  ((s.toList.dropWhile Char.isWhitespace).reverse.dropWhile
      Char.isWhitespace).reverse.asString

/-- Character-wise lower casing, used to model the case-insensitive
whole-title regex match of the duplicate-title checks. -/
def lowerStr (s : String) : String :=
  (s.toList.map Char.toLower).asString

/-- Embeds the extension-stripping replace over `pathAfterUpload`: it
removes a final dot followed by at least one character that is neither a
slash nor a dot (the regex anchored at the end of the string). -/
def stripExt (s : String) : String :=
  let rev := s.toList.reverse
  let ext := rev.takeWhile fun c => c ≠ '.'
  if ext.length < rev.length ∧ ext ≠ [] ∧ '/' ∉ ext then
    ((rev.drop (ext.length + 1)).reverse).asString
  else s

/-- Shared body of both `extractPublicIdFromUrl` copies: split on `/`,
locate the `upload` segment, drop it and the following version segment,
rejoin, strip the extension. -/
def extractPublicIdCore (u : String) : Option String :=
  let urlParts := splitChar '/' u
  match urlParts.findIdx? (fun part => part = "upload") with
  | none => none
  | some uploadIndex =>
    let pathAfterUpload := String.intercalate "/" (urlParts.drop (uploadIndex + 2))
    some (stripExt pathAfterUpload)

/-- Portfolio copy of `extractPublicIdFromUrl`: guards
`!url || typeof url !== 'string'` up front, so the body never throws. -/
def extractPublicIdFromUrlPortfolio : JSVal → Option String
  | .nonString => none
  | .str u => if u = "" then none else extractPublicIdCore u

/-- Unguarded body of the blog copy of `extractPublicIdFromUrl`:
on a non-string input, `url.split` raises a `TypeError`. -/
def extractBlogBody : JSVal → Except String (Option String)
  | .nonString => .error "TypeError: url.split is not a function"
  | .str u => .ok (extractPublicIdCore u)

/-- Blog copy of `extractPublicIdFromUrl`: the surrounding
`try/catch` turns any thrown error into `null`. -/
def extractPublicIdFromUrlBlog (v : JSVal) : Option String :=
  match extractBlogBody v with
  | .ok r => r
  | .error _ => none

/-- Resolver applied to a stored (string) URL field, as the handlers use it. -/
def resolveUrl (u : String) : Option String :=
  extractPublicIdFromUrlPortfolio (JSVal.str u)

/-! ### Handler results -/

/-- Result of a single-record handler: HTTP status, resulting database
state, and the trace of performed events in order. -/
structure HandlerResult (α : Type) where
  status : Nat
  db : List (Nat × α)
  trace : List Event
deriving DecidableEq, Repr

/-- Result of the bulk delete handler, which additionally reports the
`deletedCount` of the batch record deletion in its response body. -/
structure BulkResult (α : Type) where
  status : Nat
  db : List (Nat × α)
  trace : List Event
  deletedCount : Nat
deriving DecidableEq, Repr

/-! ### Blog (Post) routes — strict-policy record type

Only the fields that take part in or are observed by the asset lifecycle
logic are carried (`image`, `imagePublicId`); `title` and `content`
stand in for the remaining schema fields, which the handlers pass
through unchanged via `Object.assign` and never consult. -/

structure BlogRecord where
  title : String
  content : String
  image : String
  imagePublicId : String
deriving DecidableEq, Repr

/-- A blog update request body: absent fields are `none`
(`Object.assign` only overwrites fields present in the body). -/
structure BlogUpdateReq where
  title : Option String := none
  content : Option String := none
  image : Option String := none
  imagePublicId : Option String := none
deriving DecidableEq, Repr

/-- Embeds `Object.assign(blog, req.body)`. -/
def BlogRecord.assign (b : BlogRecord) (r : BlogUpdateReq) : BlogRecord :=
  { title := r.title.getD b.title
    content := r.content.getD b.content
    image := r.image.getD b.image
    imagePublicId := r.imagePublicId.getD b.imagePublicId }

/-- Blog update handler (`router.put` in the blog routes): load, assign,
save.  It performs no asset cleanup at all, hence needs no oracle. -/
def blogUpdate (db : List (Nat × BlogRecord)) (id : Nat) (req : BlogUpdateReq) :
    HandlerResult BlogRecord :=
  match findById db id with
  | none => ⟨404, db, []⟩
  | some b => ⟨200, saveById db id (b.assign req), [Event.save id]⟩

/-- Blog delete handler (`router.delete` in the blog routes).
With an explicitly stored `imagePublicId`, an outcome other than `"ok"`
or `"not found"` — or a thrown error — aborts with 500 before the record
is removed.  With only a URL, the derived-id deletion's outcome is merely
warned about and the record is removed regardless. -/
def blogDelete (o : Oracle) (db : List (Nat × BlogRecord)) (id : Nat) :
    HandlerResult BlogRecord :=
  match findById db id with
  | none => ⟨404, db, []⟩
  | some b =>
    if b.imagePublicId ≠ "" then
      let res := o b.imagePublicId
      let ev := [Event.delCall b.imagePublicId res]
      match res with
      | .ret r =>
        if r ≠ "ok" ∧ r ≠ "not found" then ⟨500, db, ev⟩
        else ⟨200, removeById db id, ev ++ [Event.removeRecord id]⟩
      | .exn => ⟨500, db, ev⟩
    else if b.image ≠ "" then
      match extractPublicIdFromUrlBlog (JSVal.str b.image) with
      | some p =>
        if p ≠ "" then
          ⟨200, removeById db id,
            [Event.delCall p (o p), Event.removeRecord id]⟩
        else ⟨200, removeById db id, [Event.removeRecord id]⟩
      | none => ⟨200, removeById db id, [Event.removeRecord id]⟩
    else ⟨200, removeById db id, [Event.removeRecord id]⟩

/-! ### Team routes — best-effort record type -/

structure TeamRecord where
  name : String
  role : String
  experience : String
  expertise : List String
  avatar : String
  avatarPublicId : String
  order : Int
  isActive : Bool
deriving DecidableEq, Repr

/-- A team update request body: absent fields are `none` (the handler
assigns a field only when it is not `undefined`). -/
structure TeamUpdateReq where
  name : Option String := none
  role : Option String := none
  experience : Option String := none
  expertise : Option (List String) := none
  avatar : Option String := none
  avatarPublicId : Option String := none
  order : Option Int := none
  isActive : Option Bool := none
deriving DecidableEq, Repr

/-- Validation in the team update handler: `expertise` present but with
fewer than two entries is rejected (an empty array is truthy in JS, so
it is checked too). -/
def teamExpertiseInvalid (r : TeamUpdateReq) : Bool :=
  match r.expertise with
  | some l => decide (l.length < 2)
  | none => false

/-- Field-by-field assignment of the team update handler
(`if (field !== undefined) teamMember.field = field`). -/
def TeamRecord.applyUpdate (t : TeamRecord) (r : TeamUpdateReq) : TeamRecord :=
  { name := r.name.getD t.name
    role := r.role.getD t.role
    experience := r.experience.getD t.experience
    expertise := r.expertise.getD t.expertise
    avatar := r.avatar.getD t.avatar
    avatarPublicId := r.avatarPublicId.getD t.avatarPublicId
    order := r.order.getD t.order
    isActive := r.isActive.getD t.isActive }

/-- Team update handler (`router.put` in `src/routes/team.js`): load,
validate, delete the old avatar when the avatar changes and an explicit
old public id exists (any failure swallowed by `try/catch`), assign,
save. -/
def teamUpdate (o : Oracle) (db : List (Nat × TeamRecord)) (id : Nat)
    (req : TeamUpdateReq) : HandlerResult TeamRecord :=
  match findById db id with
  | none => ⟨404, db, []⟩
  | some t =>
    if teamExpertiseInvalid req then ⟨400, db, []⟩
    else
      let cleanup : List Event :=
        match req.avatar with
        | some a =>
          if a ≠ "" ∧ a ≠ t.avatar ∧ t.avatarPublicId ≠ "" then
            [Event.delCall t.avatarPublicId (o t.avatarPublicId)]
          else []
        | none => []
      ⟨200, saveById db id (t.applyUpdate req), cleanup ++ [Event.save id]⟩

/-- Team delete handler (`router.delete` in `src/routes/team.js`):
delete the avatar when an explicit public id exists (failure swallowed),
then remove the record unconditionally. -/
def teamDelete (o : Oracle) (db : List (Nat × TeamRecord)) (id : Nat) :
    HandlerResult TeamRecord :=
  match findById db id with
  | none => ⟨404, db, []⟩
  | some t =>
    let cleanup : List Event :=
      if t.avatarPublicId ≠ "" then
        [Event.delCall t.avatarPublicId (o t.avatarPublicId)]
      else []
    ⟨200, removeById db id, cleanup ++ [Event.removeRecord id]⟩

/-! ### Portfolio (CaseStudy) routes — best-effort record type with a
main image and a gallery -/

structure PortfolioRecord where
  title : String
  excerpt : String
  projectOverview : String
  clientName : String
  completedDate : String
  technologies : List String
  liveDomainLink : String
  challenges : String
  status : String
  category : String
  featured : Bool
  mainImage : String
  mainImagePublicId : String
  galleryImages : List String
  galleryImagePublicIds : List String
deriving DecidableEq, Repr

/-- Embeds `deleteMultipleImages(imageUrls, publicIds)`: when any public
ids are supplied, only the (truthy) public ids are deleted and the URL
list is ignored; only when the public-id list is empty are ids derived
from the URLs and deleted.  All outcomes are collected by
`Promise.allSettled` and discarded. -/
def deleteMultipleImages (o : Oracle) (imageUrls : List String)
    (publicIds : List String) : List Event :=
  if publicIds.length > 0 then
    publicIds.filterMap fun publicId =>
      if publicId ≠ "" then some (Event.delCall publicId (o publicId)) else none
  else if imageUrls.length > 0 then
    imageUrls.filterMap fun url =>
      match extractPublicIdFromUrlPortfolio (JSVal.str url) with
      | some p => if p ≠ "" then some (Event.delCall p (o p)) else none
      | none => none
  else []

/-- Collection step shared by the single and bulk portfolio delete
handlers: per record, the main image goes to the public-id list when an
explicit id is stored, else to the URL list; likewise the gallery as a
whole. Returns `(imagesToDelete, publicIdsToDelete)`. -/
def portfolioCollect (p : PortfolioRecord) : List String × List String :=
  let mainPart : List String × List String :=
    if p.mainImagePublicId ≠ "" then ([], [p.mainImagePublicId])
    else if p.mainImage ≠ "" then ([p.mainImage], [])
    else ([], [])
  let galleryPart : List String × List String :=
    if p.galleryImagePublicIds.length > 0 then ([], p.galleryImagePublicIds)
    else if p.galleryImages.length > 0 then (p.galleryImages, [])
    else ([], [])
  (mainPart.1 ++ galleryPart.1, mainPart.2 ++ galleryPart.2)

/-- Portfolio delete handler (`router.delete` in
`src/routes/portfolio.js`): collect, fire the asset deletions, then
remove the record unconditionally (no outcome is ever consulted). -/
def portfolioDelete (o : Oracle) (db : List (Nat × PortfolioRecord))
    (id : Nat) : HandlerResult PortfolioRecord :=
  match findById db id with
  | none => ⟨404, db, []⟩
  | some p =>
    let pc := portfolioCollect p
    let cleanup := deleteMultipleImages o pc.1 pc.2
    ⟨200, removeById db id, cleanup ++ [Event.removeRecord id]⟩

/-- Portfolio bulk delete handler (`router.post /bulk/delete`): reject an
empty id list (400), 404 when nothing matches, else collect across all
matched records, fire the asset deletions, and remove all matched
records in one `deleteMany`, reporting its `deletedCount`. -/
def portfolioBulkDelete (o : Oracle) (db : List (Nat × PortfolioRecord))
    (ids : List Nat) : BulkResult PortfolioRecord :=
  if ids.isEmpty then ⟨400, db, [], 0⟩
  else
    let portfolios := db.filter fun p => p.1 ∈ ids
    if portfolios.isEmpty then ⟨404, db, [], 0⟩
    else
      let collected := portfolios.map fun p => portfolioCollect p.2
      let imagesToDelete := (collected.map Prod.fst).flatten
      let publicIdsToDelete := (collected.map Prod.snd).flatten
      let cleanup := deleteMultipleImages o imagesToDelete publicIdsToDelete
      ⟨200, removeManyByIds db ids, cleanup ++ [Event.removeMany ids],
        countManyByIds db ids⟩

/-- A portfolio update request body: absent fields are `none`. -/
structure PortfolioUpdateReq where
  title : Option String := none
  excerpt : Option String := none
  projectOverview : Option String := none
  clientName : Option String := none
  completedDate : Option String := none
  technologies : Option (List String) := none
  liveDomainLink : Option String := none
  challenges : Option String := none
  status : Option String := none
  category : Option String := none
  featured : Option Bool := none
  mainImage : Option String := none
  mainImagePublicId : Option String := none
  galleryImages : Option (List String) := none
  galleryImagePublicIds : Option (List String) := none
  removedGalleryImages : Option (List String) := none
  removedGalleryImagePublicIds : Option (List String) := none
deriving DecidableEq, Repr

/-- JS pattern `field?.trim() || old`: keep the old value when the field
is absent or trims to the empty string. -/
def orElseTrim (x : Option String) (old : String) : String :=
  match x with
  | none => old
  | some s => if jsTrim s = "" then old else jsTrim s

/-- JS pattern `field || old`: keep the old value when the field is
absent or is the (falsy) empty string. -/
def orElseStr (x : Option String) (old : String) : String :=
  match x with
  | none => old
  | some s => if s = "" then old else s

/-- Embeds the `updateData` object of the portfolio update handler. -/
def portfolioUpdateData (p : PortfolioRecord) (r : PortfolioUpdateReq) :
    PortfolioRecord :=
  { title := orElseTrim r.title p.title
    excerpt := orElseTrim r.excerpt p.excerpt
    projectOverview := orElseTrim r.projectOverview p.projectOverview
    clientName := orElseTrim r.clientName p.clientName
    completedDate := orElseStr r.completedDate p.completedDate
    technologies :=
      match r.technologies with
      | none => p.technologies
      | some l => (l.map jsTrim).filter (· ≠ "")
    liveDomainLink := orElseTrim r.liveDomainLink p.liveDomainLink
    challenges := orElseTrim r.challenges p.challenges
    status := orElseStr r.status p.status
    category := orElseStr r.category p.category
    featured := r.featured.getD p.featured
    mainImage := orElseStr r.mainImage p.mainImage
    mainImagePublicId := orElseStr r.mainImagePublicId p.mainImagePublicId
    galleryImages := r.galleryImages.getD p.galleryImages
    galleryImagePublicIds := r.galleryImagePublicIds.getD p.galleryImagePublicIds }

/-- Duplicate-title query of the portfolio update handler
(`findOne` on a case-insensitive whole-title regex, excluding the record
being updated; the regex is modelled as case-insensitive equality). -/
def titleConflict (db : List (Nat × PortfolioRecord)) (id : Nat)
    (t : String) : Bool :=
  db.any fun q => q.1 != id && lowerStr q.2.title == lowerStr t

/-- Removed-gallery-images step of the portfolio update handler:
`deleteMultipleImages(removedGalleryImages, removedGalleryImagePublicIds)`
when the removed list is present and non-empty. -/
def portfolioRemovedCleanup (o : Oracle) (req : PortfolioUpdateReq) :
    List Event :=
  match req.removedGalleryImages with
  | some urls =>
    if urls.length > 0 then
      deleteMultipleImages o urls (req.removedGalleryImagePublicIds.getD [])
    else []
  | none => []

/-- Main-image-change step of the portfolio update handler: when a new
non-empty main image differs from the stored one, delete the old main
image by its explicit public id, else by an id derived from the old URL
(each guarded for truthiness; failures swallowed by `try/catch`). -/
def portfolioMainCleanup (o : Oracle) (p : PortfolioRecord)
    (req : PortfolioUpdateReq) : List Event :=
  match req.mainImage with
  | some m =>
    if m ≠ "" ∧ m ≠ p.mainImage then
      if p.mainImagePublicId ≠ "" then
        [Event.delCall p.mainImagePublicId (o p.mainImagePublicId)]
      else if p.mainImage ≠ "" then
        match extractPublicIdFromUrlPortfolio (JSVal.str p.mainImage) with
        | some oldPid =>
          if oldPid ≠ "" then [Event.delCall oldPid (o oldPid)] else []
        | none => []
      else []
    else []
  | none => []

/-- Duplicate-changed-title rejection of the portfolio update handler. -/
def portfolioDupTitle (db : List (Nat × PortfolioRecord)) (id : Nat)
    (p : PortfolioRecord) (req : PortfolioUpdateReq) : Bool :=
  match req.title with
  | some t => if t ≠ "" ∧ t ≠ p.title then titleConflict db id t else false
  | none => false

/-- Portfolio update handler (`router.put` in `src/routes/portfolio.js`):
load; delete removed gallery images; when the main image changes, delete
the old one; build `updateData`; reject a duplicate changed title (400,
after the deletions, without saving); else assign and save. -/
def portfolioUpdate (o : Oracle) (db : List (Nat × PortfolioRecord))
    (id : Nat) (req : PortfolioUpdateReq) : HandlerResult PortfolioRecord :=
  match findById db id with
  | none => ⟨404, db, []⟩
  | some p =>
    let cleanup := portfolioRemovedCleanup o req ++ portfolioMainCleanup o p req
    if portfolioDupTitle db id p req then ⟨400, db, cleanup⟩
    else ⟨200, saveById db id (portfolioUpdateData p req), cleanup ++ [Event.save id]⟩

/-! ### Concrete fixtures used by counterexamples and witnesses -/

/-- Remote store answering `ok` to every delete. -/
def oracleOk : Oracle := fun _ => CloudResult.ret "ok"

/-- Remote store answering the failure outcome `error` to every delete. -/
def oracleError : Oracle := fun _ => CloudResult.ret "error"

/-- Remote store whose every delete call throws. -/
def oracleExn : Oracle := fun _ => CloudResult.exn

def blogUrlOnly : BlogRecord :=
  { title := "t", content := "c",
    image := "https://host/upload/v1/posts/abc.jpg", imagePublicId := "" }

def blogAbc : BlogRecord :=
  { title := "t", content := "c",
    image := "https://host/upload/v1/posts/abc.jpg", imagePublicId := "posts/abc" }

def blogDefRecord : BlogRecord :=
  { title := "t", content := "c",
    image := "https://host/upload/v1/posts/def.jpg", imagePublicId := "posts/def" }

def reqBlogDef : BlogUpdateReq :=
  { image := some "https://host/upload/v1/posts/def.jpg",
    imagePublicId := some "posts/def" }

def teamOld : TeamRecord :=
  { name := "n", role := "r", experience := "e", expertise := ["a", "b"],
    avatar := "https://h/upload/v1/av/old.jpg", avatarPublicId := "av/old",
    order := 0, isActive := true }

def reqNewAvatar : TeamUpdateReq :=
  { avatar := some "https://h/upload/v1/av/new.jpg",
    avatarPublicId := some "av/new" }

/-- A portfolio whose main image has an explicit public id while its
gallery image carries only a URL. -/
def pMix : PortfolioRecord :=
  { title := "p", excerpt := "e", projectOverview := "o", clientName := "c",
    completedDate := "2024", technologies := ["js"], liveDomainLink := "",
    challenges := "", status := "completed", category := "web-dev",
    featured := false,
    mainImage := "https://h/upload/v1/m/main.jpg",
    mainImagePublicId := "m/main",
    galleryImages := ["https://h/upload/v1/g/g1.jpg"],
    galleryImagePublicIds := [] }

/-- A portfolio with no explicit public ids at all. -/
def pUrlOnly : PortfolioRecord :=
  { pMix with
    mainImagePublicId := "",
    galleryImagePublicIds := [] }

/-- Derivation step of the URL branch of `deleteMultipleImages`:
the id derived from one URL, when truthy. -/
def derivedPid (u : String) : Option String :=
  match extractPublicIdFromUrlPortfolio (JSVal.str u) with
  | some p => if p ≠ "" then some p else none
  | none => none

/-! ### Store lemmas -/

theorem findById_removeById {α : Type} (db : List (Nat × α)) (id : Nat) :
    findById (removeById db id) id = none := by
  induction db with
  | nil => rfl
  | cons hd tl ih =>
    by_cases hh : hd.1 = id
    · simp [findById, removeById, List.filter_cons, hh, ih]
    · simp [findById, removeById, List.filter_cons, List.find?_cons, hh, ih]

theorem findById_removeManyByIds {α : Type} (db : List (Nat × α))
    (ids : List Nat) (i : Nat) (h : i ∈ ids) :
    findById (removeManyByIds db ids) i = none := by
  simp only [findById, removeManyByIds, Option.map_eq_none', List.find?_eq_none,
    decide_eq_true_eq, List.mem_filter]
  intro p hp hpi
  have hni : p.1 ∉ ids := by simpa using hp.2
  exact hni (hpi ▸ h)

theorem findById_saveById {α : Type} (db : List (Nat × α)) (id : Nat)
    (r : α) (h : (findById db id).isSome) :
    findById (saveById db id r) id = some r := by
  induction db with
  | nil => simp [findById] at h
  | cons hd tl ih =>
    by_cases hh : hd.1 = id
    · simp [findById, saveById, hh]
    · have h' : (findById tl id).isSome := by
        simpa [findById, List.find?_cons, hh] using h
      have hres := ih h'
      simpa [findById, saveById, List.find?_cons, hh] using hres

/-! ### Claim C8 — resolver examples -/

/-- C8: the identifier resolver maps
`https://host/img/upload/v17/folder/name.jpg` to `folder/name` (marker
located, one version segment and the extension stripped), returns absent
on a URL without the `upload` marker, and returns absent on the empty
string — in both source copies of the function. -/
theorem resolver_examples :
    extractPublicIdFromUrlPortfolio
        (JSVal.str "https://host/img/upload/v17/folder/name.jpg") =
      some "folder/name" ∧
    extractPublicIdFromUrlBlog
        (JSVal.str "https://host/img/upload/v17/folder/name.jpg") =
      some "folder/name" ∧
    extractPublicIdFromUrlPortfolio
        (JSVal.str "https://host/no-upload-marker/x.png") = none ∧
    extractPublicIdFromUrlBlog
        (JSVal.str "https://host/no-upload-marker/x.png") = none ∧
    extractPublicIdFromUrlPortfolio (JSVal.str "") = none ∧
    extractPublicIdFromUrlBlog (JSVal.str "") = none := by
  decide

/-! ### Claim C9 — resolver totality, purity, determinism -/

/-- C9: on every input — strings of any shape, the empty string, and
non-string values — the resolver returns either an identifier or absent
and never propagates an exception: the blog copy (whose body can throw a
`TypeError`, absorbed by its `try/catch`) agrees everywhere with the
guarded portfolio copy, the result is always `none` or `some s`, and
resolving the same input twice yields the same result. -/
theorem resolver_total_deterministic (v : JSVal) :
    extractPublicIdFromUrlBlog v = extractPublicIdFromUrlPortfolio v ∧
    (extractPublicIdFromUrlPortfolio v = none ∨
      ∃ s, extractPublicIdFromUrlPortfolio v = some s) ∧
    extractPublicIdFromUrlPortfolio v = extractPublicIdFromUrlPortfolio v := by
  refine ⟨?_, ?_, rfl⟩
  · cases v with
    | nonString => rfl
    | str u =>
      by_cases hu : u = ""
      · subst hu; rfl
      · simp [extractPublicIdFromUrlBlog, extractBlogBody,
          extractPublicIdFromUrlPortfolio, hu]
  · cases hr : extractPublicIdFromUrlPortfolio v with
    | none => exact Or.inl rfl
    | some s => exact Or.inr ⟨s, rfl⟩

/-- Strict/best-effort split of the blog delete, as forced by the code:
with an explicitly stored public id the delete is strict; with only a
URL-derived id it is best-effort. -/
def BlogDeleteStrict (o : Oracle) (db : List (Nat × BlogRecord)) (id : Nat)
    (b : BlogRecord) : Prop :=
  (b.imagePublicId ≠ "" →
    (∀ r, o b.imagePublicId = CloudResult.ret r → r ≠ "ok" → r ≠ "not found" →
      (blogDelete o db id).status = 500 ∧ (blogDelete o db id).db = db) ∧
    (o b.imagePublicId = CloudResult.exn →
      (blogDelete o db id).status = 500 ∧ (blogDelete o db id).db = db) ∧
    (∀ r, o b.imagePublicId = CloudResult.ret r → (r = "ok" ∨ r = "not found") →
      (blogDelete o db id).status = 200 ∧
        findById (blogDelete o db id).db id = none)) ∧
  (b.imagePublicId = "" →
    (blogDelete o db id).status = 200 ∧
      findById (blogDelete o db id).db id = none)

/-- C1 counterexample: a blog whose image reference has only a URL (no
stored public id).  The asset delete for the URL-derived id returns the
failure outcome `error`, yet the delete reports success (200) and the
record is gone from the store — the strict policy does not extend to
URL-derived identifiers. -/
theorem blog_delete_strict_cex :
    callPids (blogDelete oracleError [(1, blogUrlOnly)] 1).trace =
      ["posts/abc"] ∧
    (blogDelete oracleError [(1, blogUrlOnly)] 1).status = 200 ∧
    findById (blogDelete oracleError [(1, blogUrlOnly)] 1).db 1 = none := by
  decide

/-- C1 (amended): the blog (Post) delete is strict exactly for an
explicitly stored identifier — a returned outcome other than `ok` /
`not found`, or a thrown error, aborts with failure and leaves the
record in the store, and only the good outcomes remove it — while for a
reference whose identifier is merely derived from its URL the record is
removed and success reported regardless of the deletion outcome. -/
theorem blog_delete_policy (o : Oracle) (db : List (Nat × BlogRecord))
    (id : Nat) (b : BlogRecord) (hfind : findById db id = some b) :
    BlogDeleteStrict o db id b := by
  unfold BlogDeleteStrict
  constructor
  · intro hpid
    refine ⟨?_, ?_, ?_⟩
    · intro r hr hok hnf
      simp [blogDelete, hfind, hpid, hr, hok, hnf]
    · intro hexn
      simp [blogDelete, hfind, hpid, hexn]
    · intro r hr hgood
      have hcond : ¬ (r ≠ "ok" ∧ r ≠ "not found") := by
        rcases hgood with h | h <;> simp [h]
      simp [blogDelete, hfind, hpid, hr, hcond, findById_removeById]
  · intro hpid
    by_cases himg : b.image = ""
    · simp [blogDelete, hfind, hpid, himg, findById_removeById]
    · cases hext : extractPublicIdFromUrlBlog (JSVal.str b.image) with
      | none => simp [blogDelete, hfind, hpid, himg, hext, findById_removeById]
      | some p =>
        by_cases hp : p = ""
        · simp [blogDelete, hfind, hpid, himg, hext, hp, findById_removeById]
        · simp [blogDelete, hfind, hpid, himg, hext, hp, findById_removeById]

/-- C1 witness: the amended theorem applied to a concrete store holding
one blog with an explicitly stored public id. -/
theorem blog_delete_policy_witness :
    findById [(1, blogAbc)] 1 = some blogAbc ∧
    BlogDeleteStrict oracleError [(1, blogAbc)] 1 blogAbc :=
  ⟨by decide, blog_delete_policy oracleError [(1, blogAbc)] 1 blogAbc (by decide)⟩

def reqNewMain : PortfolioUpdateReq :=
  { mainImage := some "https://h/upload/v1/m/new.jpg",
    mainImagePublicId := some "m/new" }

/-- C2 counterexample: a concrete team update that changes the avatar.
The handler's event trace shows the remote delete of the old avatar
(first event) issued strictly before the record save (second event):
the delete call is issued before, not after, persistence. -/
theorem update_persist_first_cex :
    (teamUpdate oracleOk [(1, teamOld)] 1 reqNewAvatar).trace =
      [Event.delCall "av/old" (CloudResult.ret "ok"), Event.save 1] := by
  decide

/-- Request superseding the main image of a record that also carries a
removed-gallery list; the old main image has no explicit public id, so
its identifier must be URL-derived. -/
def reqRemAndMain : PortfolioUpdateReq :=
  { mainImage := some "https://h/upload/v1/m/new.jpg",
    removedGalleryImages := some ["https://h/upload/v1/g/g1.jpg"] }

/-- Holds when the event is not a record save. -/
def Event.isSave : Event → Bool
  | .save _ => true
  | _ => false

/-- Holds when a trace contains no remote delete call at all. -/
def noDeleteCall (tr : List Event) : Bool :=
  tr.all fun e =>
    match e with
    | Event.delCall _ _ => false
    | _ => true

/-- Holds when no remote delete call occurs after a record-save event:
every deletion the operation issues (if any) precedes persistence. -/
def noDeleteCallAfterSave : List Event → Bool
  | [] => true
  | Event.save _ :: rest => noDeleteCall rest
  | _ :: rest => noDeleteCallAfterSave rest

theorem noDeleteCallAfterSave_of_noSave (l : List Event)
    (h : (l.all fun e => !e.isSave) = true) :
    noDeleteCallAfterSave l = true := by
  induction l with
  | nil => rfl
  | cons e rest ih =>
    cases e with
    | save i => simp [Event.isSave] at h
    | delCall p r =>
      simp only [List.all_cons, Bool.and_eq_true] at h
      exact ih h.2
    | removeRecord i =>
      simp only [List.all_cons, Bool.and_eq_true] at h
      exact ih h.2
    | removeMany is =>
      simp only [List.all_cons, Bool.and_eq_true] at h
      exact ih h.2

theorem noDeleteCallAfterSave_append_save (l : List Event) (i : Nat)
    (h : (l.all fun e => !e.isSave) = true) :
    noDeleteCallAfterSave (l ++ [Event.save i]) = true := by
  induction l with
  | nil => rfl
  | cons e rest ih =>
    cases e with
    | save j => simp [Event.isSave] at h
    | delCall p r =>
      simp only [List.all_cons, Bool.and_eq_true] at h
      exact ih h.2
    | removeRecord j =>
      simp only [List.all_cons, Bool.and_eq_true] at h
      exact ih h.2
    | removeMany is =>
      simp only [List.all_cons, Bool.and_eq_true] at h
      exact ih h.2

theorem deleteMultipleImages_noSave (o : Oracle) (urls pids : List String) :
    ((deleteMultipleImages o urls pids).all fun e => !e.isSave) = true := by
  unfold deleteMultipleImages
  split
  · rw [List.all_eq_true]
    intro e he
    obtain ⟨p, -, hfe⟩ := List.mem_filterMap.mp he
    by_cases hp : p = ""
    · simp [hp] at hfe
    · have heq : Event.delCall p (o p) = e := by simpa [hp] using hfe
      rw [← heq]; rfl
  · split
    · rw [List.all_eq_true]
      intro e he
      obtain ⟨u, -, hfe⟩ := List.mem_filterMap.mp he
      cases hext : extractPublicIdFromUrlPortfolio (JSVal.str u) with
      | none => simp [hext] at hfe
      | some p =>
        by_cases hp : p = ""
        · simp [hext, hp] at hfe
        · have heq : Event.delCall p (o p) = e := by
            simpa [hext, hp] using hfe
          rw [← heq]; rfl
    · rfl

theorem portfolioRemovedCleanup_noSave (o : Oracle)
    (req : PortfolioUpdateReq) :
    ((portfolioRemovedCleanup o req).all fun e => !e.isSave) = true := by
  unfold portfolioRemovedCleanup
  cases req.removedGalleryImages with
  | none => rfl
  | some urls =>
    by_cases hl : urls.length > 0 <;> simp [hl, deleteMultipleImages_noSave]

theorem portfolioMainCleanup_noSave (o : Oracle) (p : PortfolioRecord)
    (req : PortfolioUpdateReq) :
    ((portfolioMainCleanup o p req).all fun e => !e.isSave) = true := by
  unfold portfolioMainCleanup
  cases hm : req.mainImage with
  | none => rfl
  | some m =>
    by_cases hc : m ≠ "" ∧ m ≠ p.mainImage
    · by_cases hpid : p.mainImagePublicId = ""
      · by_cases hmi : p.mainImage = ""
        · simp [hc, hpid, hmi]
        · cases hext : extractPublicIdFromUrlPortfolio (JSVal.str p.mainImage)
            with
          | none => simp [hc, hpid, hmi, hext]
          | some q =>
            by_cases hq : q = "" <;>
              simp [hc, hpid, hmi, hext, hq, Event.isSave]
      · simp [hc, hpid, Event.isSave]
    · simp [hc]

/-- C2 (amended): in the team and portfolio update handlers, every
remote deletion of a superseded or removed asset is issued before the
record save, never after — for every request, store and oracle, no
delete call follows a save in the trace; the team update with a changed
avatar deletes the old explicit id and then saves; the portfolio update
issues its removed-gallery deletions and its old-main-image deletion
(whether the old identifier is stored explicitly or derived from the old
URL) and only then saves, regardless of every deletion outcome. -/
theorem update_delete_before_save :
    (∀ (o : Oracle) db id req,
      noDeleteCallAfterSave (teamUpdate o db id req).trace = true) ∧
    (∀ (o : Oracle) db id req,
      noDeleteCallAfterSave (portfolioUpdate o db id req).trace = true) ∧
    (∀ (o : Oracle) db id req (t : TeamRecord) (a : String),
      findById db id = some t → teamExpertiseInvalid req = false →
      req.avatar = some a → a ≠ "" → a ≠ t.avatar → t.avatarPublicId ≠ "" →
      (teamUpdate o db id req).trace =
        [Event.delCall t.avatarPublicId (o t.avatarPublicId),
         Event.save id]) ∧
    (∀ (o : Oracle) db id req (p : PortfolioRecord),
      findById db id = some p → portfolioDupTitle db id p req = false →
      (portfolioUpdate o db id req).trace =
        portfolioRemovedCleanup o req ++ portfolioMainCleanup o p req ++
          [Event.save id]) ∧
    (∀ (o : Oracle) (p : PortfolioRecord) (req : PortfolioUpdateReq)
        (m : String),
      req.mainImage = some m → m ≠ "" → m ≠ p.mainImage →
      p.mainImagePublicId ≠ "" →
      portfolioMainCleanup o p req =
        [Event.delCall p.mainImagePublicId (o p.mainImagePublicId)]) ∧
    (∀ (o : Oracle) (p : PortfolioRecord) (req : PortfolioUpdateReq)
        (m q : String),
      req.mainImage = some m → m ≠ "" → m ≠ p.mainImage →
      p.mainImagePublicId = "" → derivedPid p.mainImage = some q →
      portfolioMainCleanup o p req = [Event.delCall q (o q)]) := by
  refine ⟨?_, ?_, ?_, ?_, ?_, ?_⟩
  · intro o db id req
    cases hfind : findById db id with
    | none => simp [teamUpdate, hfind, noDeleteCallAfterSave]
    | some t =>
      by_cases hval : teamExpertiseInvalid req
      · simp [teamUpdate, hfind, hval, noDeleteCallAfterSave]
      · cases ha : req.avatar with
        | none =>
          simp [teamUpdate, hfind, hval, ha, noDeleteCallAfterSave,
            noDeleteCall]
        | some a =>
          by_cases hcond : a ≠ "" ∧ a ≠ t.avatar ∧ t.avatarPublicId ≠ "" <;>
            simp [teamUpdate, hfind, hval, ha, hcond, noDeleteCallAfterSave,
              noDeleteCall]
  · intro o db id req
    cases hfind : findById db id with
    | none => simp [portfolioUpdate, hfind, noDeleteCallAfterSave]
    | some p =>
      have hns : ((portfolioRemovedCleanup o req ++
          portfolioMainCleanup o p req).all fun e => !e.isSave) = true := by
        simp [List.all_append, portfolioRemovedCleanup_noSave,
          portfolioMainCleanup_noSave]
      simp only [portfolioUpdate, hfind]
      split
      · exact noDeleteCallAfterSave_of_noSave _ hns
      · exact noDeleteCallAfterSave_append_save _ id hns
  · intro o db id req t a hfind hval ha h1 h2 h3
    simp [teamUpdate, hfind, hval, ha, h1, h2, h3]
  · intro o db id req p hfind hdup
    simp [portfolioUpdate, hfind, hdup]
  · intro o p req m hm h1 h2 hpid
    simp [portfolioMainCleanup, hm, h1, h2, hpid]
  · intro o p req m q hm h1 h2 hpid hq
    unfold derivedPid at hq
    cases hext : extractPublicIdFromUrlPortfolio (JSVal.str p.mainImage) with
    | none => rw [hext] at hq; cases hq
    | some r =>
      rw [hext] at hq
      by_cases hr : r = ""
      · simp [hr] at hq
      · have hrq : r = q := by simpa [hr] using hq
        subst hrq
        have hmi : p.mainImage ≠ "" := by
          intro h0
          rw [h0] at hext
          simp [extractPublicIdFromUrlPortfolio] at hext
        simp [portfolioMainCleanup, hm, h1, h2, hpid, hmi, hext, hr]

/-- C2 witness: the amended statement at concrete inputs under a
throwing remote store — a team avatar change (explicit old id), and a
portfolio update that both removes a gallery image and supersedes a main
image whose old identifier is URL-derived: all three delete calls appear
strictly before the save events. -/
theorem update_delete_before_save_witness :
    (teamUpdate oracleExn [(1, teamOld)] 1 reqNewAvatar).trace =
      [Event.delCall "av/old" CloudResult.exn, Event.save 1] ∧
    (portfolioUpdate oracleExn [(1, pUrlOnly)] 1 reqRemAndMain).trace =
      [Event.delCall "g/g1" CloudResult.exn,
       Event.delCall "m/main" CloudResult.exn, Event.save 1] ∧
    portfolioMainCleanup oracleExn pUrlOnly reqRemAndMain =
      [Event.delCall "m/main" CloudResult.exn] :=
  ⟨update_delete_before_save.2.2.1 oracleExn [(1, teamOld)] 1 reqNewAvatar
      teamOld "https://h/upload/v1/av/new.jpg" (by decide) (by decide) rfl
      (by decide) (by decide) (by decide),
   update_delete_before_save.2.2.2.1 oracleExn [(1, pUrlOnly)] 1 reqRemAndMain
      pUrlOnly (by decide) (by decide),
   update_delete_before_save.2.2.2.2.2 oracleExn pUrlOnly reqRemAndMain
      "https://h/upload/v1/m/new.jpg" "m/main" rfl (by decide) (by decide)
      (by decide) (by decide)⟩

theorem callPids_append (l1 l2 : List Event) :
    callPids (l1 ++ l2) = callPids l1 ++ callPids l2 := by
  simp [callPids]

theorem callPids_removeRecord (id : Nat) :
    callPids [Event.removeRecord id] = [] := rfl

theorem callPids_pidBranch (o : Oracle) (pids : List String) :
    callPids (pids.filterMap fun publicId =>
      if publicId ≠ "" then some (Event.delCall publicId (o publicId))
      else none) =
    pids.filter (· ≠ "") := by
  induction pids with
  | nil => rfl
  | cons hd tl ih =>
    by_cases hh : hd = ""
    · simpa [List.filterMap_cons, List.filter_cons, hh] using ih
    · simpa [callPids, List.filterMap_cons, List.filter_cons, hh] using ih

theorem callPids_urlBranch (o : Oracle) (urls : List String) :
    callPids (urls.filterMap fun url =>
      match extractPublicIdFromUrlPortfolio (JSVal.str url) with
      | some p => if p ≠ "" then some (Event.delCall p (o p)) else none
      | none => none) =
    urls.filterMap derivedPid := by
  induction urls with
  | nil => rfl
  | cons hd tl ih =>
    cases hext : extractPublicIdFromUrlPortfolio (JSVal.str hd) with
    | none => simpa [List.filterMap_cons, derivedPid, hext] using ih
    | some p =>
      by_cases hp : p = ""
      · simpa [List.filterMap_cons, derivedPid, hext, hp] using ih
      · simpa [callPids, List.filterMap_cons, derivedPid, hext, hp] using ih

/-- Identifier-resolution rule actually implemented by
`deleteMultipleImages`: explicit public ids, when any are supplied, are
the only deletions attempted; URL-derived ids are attempted only when no
explicit id was supplied at all. -/
def DmiCallRule (o : Oracle) (urls pids : List String) : Prop :=
  (pids ≠ [] →
    callPids (deleteMultipleImages o urls pids) = pids.filter (· ≠ "")) ∧
  (pids = [] →
    callPids (deleteMultipleImages o urls pids) = urls.filterMap derivedPid)

theorem dmi_call_rule (o : Oracle) (urls pids : List String) :
    DmiCallRule o urls pids := by
  constructor
  · intro hp
    have hl : pids.length > 0 := List.length_pos.mpr hp
    simp only [deleteMultipleImages, if_pos hl]
    exact callPids_pidBranch o pids
  · intro hp
    subst hp
    simp only [deleteMultipleImages]
    rw [if_neg (by simp)]
    by_cases hu : urls.length > 0
    · rw [if_pos hu]
      exact callPids_urlBranch o urls
    · rw [if_neg hu]
      have hnil : urls = [] := by
        cases urls with
        | nil => rfl
        | cons a l => exact absurd (by simp) hu
      subst hnil
      rfl

/-- C3 counterexample: a portfolio whose main image has an explicit
public id while its gallery image carries only a URL.  The single-record
delete issues exactly one remote deletion (the explicit id); the
URL-only gallery reference — whose id is derivable — is skipped, and the
record is still removed with success. -/
theorem delete_skips_url_refs_cex :
    callPids (portfolioDelete oracleOk [(1, pMix)] 1).trace = ["m/main"] ∧
    derivedPid "https://h/upload/v1/g/g1.jpg" = some "g/g1" ∧
    ¬ ("g/g1" ∈ callPids (portfolioDelete oracleOk [(1, pMix)] 1).trace) ∧
    (portfolioDelete oracleOk [(1, pMix)] 1).status = 200 := by
  decide

/-- C3 (amended): in the delete paths, the identifier-resolution rule is
per batch, not per reference: when any explicit public id is collected,
exactly the non-empty explicit ids are deleted and URL-only references
are skipped; only when no explicit id is collected at all are ids
derived from URLs, and then every resolvable URL-derived id is
attempted.  For a record with no explicit ids anywhere, the single
delete attempts every derivable id. -/
theorem delete_asset_call_rule :
    (∀ (o : Oracle) (urls pids : List String), DmiCallRule o urls pids) ∧
    (∀ (o : Oracle) db id (p : PortfolioRecord), findById db id = some p →
      p.mainImagePublicId = "" → p.galleryImagePublicIds = [] →
      p.mainImage ≠ "" →
      callPids (portfolioDelete o db id).trace =
        (p.mainImage :: p.galleryImages).filterMap derivedPid) := by
  constructor
  · exact dmi_call_rule
  · intro o db id p hfind hmp hgp hmi
    have hrule := (dmi_call_rule o (p.mainImage :: p.galleryImages) []).2 rfl
    by_cases hg : p.galleryImages.length > 0
    · simpa [portfolioDelete, hfind, portfolioCollect, hmp, hgp, hmi, hg,
        callPids_append, callPids_removeRecord] using hrule
    · have hgnil : p.galleryImages = [] := by
        cases hgi : p.galleryImages with
        | nil => rfl
        | cons a l => rw [hgi] at hg; exact absurd (by simp) hg
      simpa [portfolioDelete, hfind, portfolioCollect, hmp, hgp, hmi, hg,
        hgnil, callPids_append, callPids_removeRecord] using hrule

/-- C3 witness: the rule applied to concrete inputs — an explicit-id
batch ignoring a resolvable URL, and a URL-only record whose every
derivable id is attempted. -/
theorem delete_asset_call_rule_witness :
    callPids (deleteMultipleImages oracleOk
        ["https://h/upload/v1/g/g1.jpg"] ["m/main"]) = ["m/main"] ∧
    callPids (portfolioDelete oracleOk [(2, pUrlOnly)] 2).trace =
      ["m/main", "g/g1"] :=
  ⟨(delete_asset_call_rule.1 oracleOk ["https://h/upload/v1/g/g1.jpg"]
      ["m/main"]).1 (by decide),
   delete_asset_call_rule.2 oracleOk [(2, pUrlOnly)] 2 pUrlOnly (by decide)
      (by decide) (by decide) (by decide)⟩

/-- C4: best-effort delete — for the team and portfolio record types,
whatever the remote store answers for each asset deletion (any outcome
string, or a thrown error: the oracle is universally quantified), the
delete removes the record from the store and reports success. -/
theorem best_effort_delete (o : Oracle) :
    (∀ db id (t : TeamRecord), findById db id = some t →
      (teamDelete o db id).status = 200 ∧
        findById (teamDelete o db id).db id = none) ∧
    (∀ db id (p : PortfolioRecord), findById db id = some p →
      (portfolioDelete o db id).status = 200 ∧
        findById (portfolioDelete o db id).db id = none) := by
  constructor
  · intro db id t hfind
    by_cases hpid : t.avatarPublicId = "" <;>
      simp [teamDelete, hfind, hpid, findById_removeById]
  · intro db id p hfind
    simp [portfolioDelete, hfind, findById_removeById]

/-- C4 witness: a throwing store for the team delete, a failing outcome
for the portfolio delete; both deletes still succeed and remove the
record. -/
theorem best_effort_delete_witness :
    ((teamDelete oracleExn [(1, teamOld)] 1).status = 200 ∧
      findById (teamDelete oracleExn [(1, teamOld)] 1).db 1 = none) ∧
    ((portfolioDelete oracleError [(1, pMix)] 1).status = 200 ∧
      findById (portfolioDelete oracleError [(1, pMix)] 1).db 1 = none) :=
  ⟨(best_effort_delete oracleExn).1 [(1, teamOld)] 1 teamOld (by decide),
   (best_effort_delete oracleError).2 [(1, pMix)] 1 pMix (by decide)⟩

/-- C5 counterexample: a bulk delete over a store where the one matched
record's asset deletion fails (`error`).  The response — status and
`deletedCount`, which is all the handler reports — and the resulting
store state are identical to the run in which every asset deletion
succeeds, even though the failing call is visibly in the trace: the
batch result does not report which asset deletions failed. -/
theorem bulk_delete_report_cex :
    (portfolioBulkDelete oracleError [(1, pMix)] [1]).status =
      (portfolioBulkDelete oracleOk [(1, pMix)] [1]).status ∧
    (portfolioBulkDelete oracleError [(1, pMix)] [1]).deletedCount =
      (portfolioBulkDelete oracleOk [(1, pMix)] [1]).deletedCount ∧
    (portfolioBulkDelete oracleError [(1, pMix)] [1]).db =
      (portfolioBulkDelete oracleOk [(1, pMix)] [1]).db ∧
    Event.delCall "m/main" (CloudResult.ret "error") ∈
      (portfolioBulkDelete oracleError [(1, pMix)] [1]).trace := by
  decide

/-- Behaviour of the portfolio bulk delete as implemented: 404 and no
mutation when nothing matches; otherwise one batch removal of all
matched records regardless of asset outcomes, reporting the number of
records deleted (and nothing about failed asset deletions). -/
def BulkDeleteSpec (o : Oracle) (db : List (Nat × PortfolioRecord))
    (ids : List Nat) : Prop :=
  (ids ≠ [] → db.filter (fun p => p.1 ∈ ids) = [] →
    (portfolioBulkDelete o db ids).status = 404 ∧
    (portfolioBulkDelete o db ids).db = db ∧
    (portfolioBulkDelete o db ids).trace = []) ∧
  (ids ≠ [] → db.filter (fun p => p.1 ∈ ids) ≠ [] →
    (portfolioBulkDelete o db ids).status = 200 ∧
    (portfolioBulkDelete o db ids).db = removeManyByIds db ids ∧
    (portfolioBulkDelete o db ids).deletedCount = countManyByIds db ids ∧
    ∀ i ∈ ids, findById (portfolioBulkDelete o db ids).db i = none)

/-- C5 (amended): bulk delete fails with 404 and removes nothing when no
record matches; otherwise all matched records are removed in one batch
operation regardless of individual asset-deletion outcomes, and the
batch result reports the number of records deleted — but not which
asset deletions failed. -/
theorem bulk_delete_spec (o : Oracle) (db : List (Nat × PortfolioRecord))
    (ids : List Nat) : BulkDeleteSpec o db ids := by
  unfold BulkDeleteSpec
  constructor
  · intro hids hmatch
    have hne : ¬ ids.isEmpty := by simpa [List.isEmpty_iff] using hids
    simp [portfolioBulkDelete, hne, hmatch]
  · intro hids hmatch
    have hne : ¬ ids.isEmpty := by simpa [List.isEmpty_iff] using hids
    have hne2 : ¬ (db.filter (fun p => p.1 ∈ ids)).isEmpty := by
      simpa [List.isEmpty_iff] using hmatch
    refine ⟨?_, ?_, ?_, ?_⟩
    · simp [portfolioBulkDelete, hne, hne2]
    · simp [portfolioBulkDelete, hne, hne2]
    · simp [portfolioBulkDelete, hne, hne2]
    · intro i hi
      simp only [portfolioBulkDelete, hne, hne2]
      simpa [portfolioBulkDelete, hne, hne2] using
        findById_removeManyByIds db ids i hi

/-- C5 witness: a 404 on an unmatched id set (store untouched), and a
200 batch removal with a failing asset deletion, applied concretely. -/
theorem bulk_delete_spec_witness :
    ((portfolioBulkDelete oracleOk [(5, pMix)] [1]).status = 404 ∧
      (portfolioBulkDelete oracleOk [(5, pMix)] [1]).db = [(5, pMix)]) ∧
    ((portfolioBulkDelete oracleError [(1, pMix)] [1]).status = 200 ∧
      (portfolioBulkDelete oracleError [(1, pMix)] [1]).deletedCount =
        countManyByIds [(1, pMix)] [1] ∧
      findById (portfolioBulkDelete oracleError [(1, pMix)] [1]).db 1 = none) :=
  ⟨⟨((bulk_delete_spec oracleOk [(5, pMix)] [1]).1 (by decide) (by decide)).1,
    ((bulk_delete_spec oracleOk [(5, pMix)] [1]).1 (by decide) (by decide)).2.1⟩,
   ⟨((bulk_delete_spec oracleError [(1, pMix)] [1]).2 (by decide) (by decide)).1,
    ((bulk_delete_spec oracleError [(1, pMix)] [1]).2 (by decide) (by decide)).2.2.1,
    ((bulk_delete_spec oracleError [(1, pMix)] [1]).2 (by decide) (by decide)).2.2.2
      1 (by decide)⟩⟩

def reqSameAvatar : TeamUpdateReq := { avatar := some teamOld.avatar }

/-- C6 counterexample: exactly the end-to-end scenario of the claim, on
the blog (Post) type — a stored record with
`url .../posts/abc.jpg, identifier posts/abc` updated to
`posts/def`.  The update succeeds and the stored record shows the new
reference, but the handler makes zero remote deletion calls, not exactly
one: the blog update performs no old-asset cleanup at all. -/
theorem update_supersede_cex :
    callPids (blogUpdate [(1, blogAbc)] 1 reqBlogDef).trace = [] ∧
    (blogUpdate [(1, blogAbc)] 1 reqBlogDef).status = 200 ∧
    findById (blogUpdate [(1, blogAbc)] 1 reqBlogDef).db 1 =
      some blogDefRecord := by
  decide

/-- C6 (amended): for the team update, superseding the avatar with a
different (non-empty) one triggers exactly one remote deletion attempt —
of the old avatar's explicitly stored identifier — when that identifier
is present, and none when the new avatar equals the old; the stored
record afterwards shows the new reference.  The blog (Post) update
triggers no deletion attempt at all. -/
theorem update_supersede_cleanup :
    (∀ (o : Oracle) db id req (t : TeamRecord) (a : String),
      findById db id = some t → teamExpertiseInvalid req = false →
      req.avatar = some a → a ≠ "" →
      ((a ≠ t.avatar → t.avatarPublicId ≠ "" →
          callPids (teamUpdate o db id req).trace = [t.avatarPublicId]) ∧
       (a = t.avatar → callPids (teamUpdate o db id req).trace = []) ∧
       findById (teamUpdate o db id req).db id =
         some (t.applyUpdate req))) ∧
    (∀ db id req, callPids (blogUpdate db id req).trace = []) := by
  constructor
  · intro o db id req t a hfind hval ha h1
    refine ⟨?_, ?_, ?_⟩
    · intro h2 h3
      simp [teamUpdate, hfind, hval, ha, h1, h2, h3, callPids]
    · intro h2
      simp [teamUpdate, hfind, hval, ha, h2, callPids]
    · have hsome : (findById db id).isSome := by simp [hfind]
      simp [teamUpdate, hfind, hval, findById_saveById db id _ hsome]
  · intro db id req
    cases hfind : findById db id with
    | none => simp [blogUpdate, hfind, callPids]
    | some b => simp [blogUpdate, hfind, callPids]

/-- C6 witness: the team clauses applied concretely — changed avatar
(one deletion of the old explicit id, record shows the new avatar) and
unchanged avatar (no deletion) — plus the blog clause. -/
theorem update_supersede_cleanup_witness :
    callPids (teamUpdate oracleOk [(1, teamOld)] 1 reqNewAvatar).trace =
      ["av/old"] ∧
    callPids (teamUpdate oracleOk [(1, teamOld)] 1 reqSameAvatar).trace = [] ∧
    findById (teamUpdate oracleOk [(1, teamOld)] 1 reqNewAvatar).db 1 =
      some (teamOld.applyUpdate reqNewAvatar) ∧
    callPids (blogUpdate [(1, blogAbc)] 1 reqBlogDef).trace = [] :=
  ⟨(update_supersede_cleanup.1 oracleOk [(1, teamOld)] 1 reqNewAvatar teamOld
      "https://h/upload/v1/av/new.jpg" (by decide) (by decide) rfl
      (by decide)).1 (by decide) (by decide),
   (update_supersede_cleanup.1 oracleOk [(1, teamOld)] 1 reqSameAvatar teamOld
      teamOld.avatar (by decide) (by decide) rfl (by decide)).2.1 rfl,
   (update_supersede_cleanup.1 oracleOk [(1, teamOld)] 1 reqNewAvatar teamOld
      "https://h/upload/v1/av/new.jpg" (by decide) (by decide) rfl
      (by decide)).2.2,
   update_supersede_cleanup.2 [(1, blogAbc)] 1 reqBlogDef⟩

/-- C7: update-time asset cleanup never blocks the update.  First, the
status and resulting store state of the team and portfolio update
handlers are identical under any two remote stores — the deletion
outcome (including a thrown error) cannot change what is persisted or
reported.  Second, in the success path the update reports 200 and the
stored record reflects the fully applied new state, for every oracle. -/
theorem update_cleanup_never_blocks :
    (∀ (o o2 : Oracle) db id req,
      (teamUpdate o db id req).status = (teamUpdate o2 db id req).status ∧
      (teamUpdate o db id req).db = (teamUpdate o2 db id req).db) ∧
    (∀ (o o2 : Oracle) db id req,
      (portfolioUpdate o db id req).status =
        (portfolioUpdate o2 db id req).status ∧
      (portfolioUpdate o db id req).db = (portfolioUpdate o2 db id req).db) ∧
    (∀ (o : Oracle) db id req (t : TeamRecord),
      findById db id = some t → teamExpertiseInvalid req = false →
      (teamUpdate o db id req).status = 200 ∧
      findById (teamUpdate o db id req).db id = some (t.applyUpdate req)) ∧
    (∀ (o : Oracle) db id req (p : PortfolioRecord),
      findById db id = some p → req.title = none →
      (portfolioUpdate o db id req).status = 200 ∧
      findById (portfolioUpdate o db id req).db id =
        some (portfolioUpdateData p req)) := by
  refine ⟨?_, ?_, ?_, ?_⟩
  · intro o o2 db id req
    cases hfind : findById db id with
    | none => simp [teamUpdate, hfind]
    | some t =>
      by_cases hval : teamExpertiseInvalid req <;>
        simp [teamUpdate, hfind, hval]
  · intro o o2 db id req
    cases hfind : findById db id with
    | none => simp [portfolioUpdate, hfind]
    | some p =>
      simp only [portfolioUpdate, hfind]
      split <;> simp
  · intro o db id req t hfind hval
    have hsome : (findById db id).isSome := by simp [hfind]
    simp [teamUpdate, hfind, hval, findById_saveById db id _ hsome]
  · intro o db id req p hfind htitle
    have hsome : (findById db id).isSome := by simp [hfind]
    simp [portfolioUpdate, portfolioDupTitle, hfind, htitle,
      findById_saveById db id _ hsome]

/-- C7 witness: a team update and a portfolio update whose old-asset
deletion throws; both still report 200 and store the new state. -/
theorem update_cleanup_never_blocks_witness :
    ((teamUpdate oracleExn [(1, teamOld)] 1 reqNewAvatar).status = 200 ∧
      findById (teamUpdate oracleExn [(1, teamOld)] 1 reqNewAvatar).db 1 =
        some (teamOld.applyUpdate reqNewAvatar)) ∧
    ((portfolioUpdate oracleExn [(1, pMix)] 1 reqNewMain).status = 200 ∧
      findById (portfolioUpdate oracleExn [(1, pMix)] 1 reqNewMain).db 1 =
        some (portfolioUpdateData pMix reqNewMain)) :=
  ⟨update_cleanup_never_blocks.2.2.1 oracleExn [(1, teamOld)] 1 reqNewAvatar
      teamOld (by decide) (by decide),
   update_cleanup_never_blocks.2.2.2 oracleExn [(1, pMix)] 1 reqNewMain
      pMix (by decide) rfl⟩

theorem deleteMultipleImages_all_nonEmpty (o : Oracle)
    (urls pids : List String) :
    (deleteMultipleImages o urls pids).all Event.callHasNonEmptyId = true := by
  unfold deleteMultipleImages
  split
  · rw [List.all_eq_true]
    intro e he
    obtain ⟨p, -, hfe⟩ := List.mem_filterMap.mp he
    by_cases hp : p = ""
    · simp [hp] at hfe
    · have heq : Event.delCall p (o p) = e := by simpa [hp] using hfe
      rw [← heq]
      simp [Event.callHasNonEmptyId, hp]
  · split
    · rw [List.all_eq_true]
      intro e he
      obtain ⟨u, -, hfe⟩ := List.mem_filterMap.mp he
      cases hext : extractPublicIdFromUrlPortfolio (JSVal.str u) with
      | none => simp [hext] at hfe
      | some p =>
        by_cases hp : p = ""
        · simp [hext, hp] at hfe
        · have heq : Event.delCall p (o p) = e := by
            simpa [hext, hp] using hfe
          rw [← heq]
          simp [Event.callHasNonEmptyId, hp]
    · rfl

theorem portfolioRemovedCleanup_all_nonEmpty (o : Oracle)
    (req : PortfolioUpdateReq) :
    (portfolioRemovedCleanup o req).all Event.callHasNonEmptyId = true := by
  unfold portfolioRemovedCleanup
  cases req.removedGalleryImages with
  | none => rfl
  | some urls =>
    by_cases hl : urls.length > 0 <;>
      simp [hl, deleteMultipleImages_all_nonEmpty]

theorem portfolioMainCleanup_all_nonEmpty (o : Oracle) (p : PortfolioRecord)
    (req : PortfolioUpdateReq) :
    (portfolioMainCleanup o p req).all Event.callHasNonEmptyId = true := by
  unfold portfolioMainCleanup
  cases hm : req.mainImage with
  | none => rfl
  | some m =>
    by_cases hc : m ≠ "" ∧ m ≠ p.mainImage
    · by_cases hpid : p.mainImagePublicId = ""
      · by_cases hmi : p.mainImage = ""
        · simp [hc, hpid, hmi]
        · cases hext : extractPublicIdFromUrlPortfolio (JSVal.str p.mainImage)
            with
          | none => simp [hc, hpid, hmi, hext]
          | some q =>
            by_cases hq : q = "" <;>
              simp [hc, hpid, hmi, hext, hq, Event.callHasNonEmptyId]
      · simp [hc, hpid, Event.callHasNonEmptyId]
    · simp [hc]

/-- C10: no handler ever issues a remote asset-delete call with an empty
identifier — in every trace of every lifecycle operation (blog
update/delete, team update/delete, portfolio update/delete/bulk delete),
each delete-call event carries a non-empty public id, because every call
site guards the explicit or URL-derived identifier for truthiness
before invoking the remote delete. -/
theorem no_empty_id_delete_calls :
    (∀ (o : Oracle) db id,
      (blogDelete o db id).trace.all Event.callHasNonEmptyId = true) ∧
    (∀ db id req,
      (blogUpdate db id req).trace.all Event.callHasNonEmptyId = true) ∧
    (∀ (o : Oracle) db id req,
      (teamUpdate o db id req).trace.all Event.callHasNonEmptyId = true) ∧
    (∀ (o : Oracle) db id,
      (teamDelete o db id).trace.all Event.callHasNonEmptyId = true) ∧
    (∀ (o : Oracle) db id req,
      (portfolioUpdate o db id req).trace.all Event.callHasNonEmptyId
        = true) ∧
    (∀ (o : Oracle) db id,
      (portfolioDelete o db id).trace.all Event.callHasNonEmptyId = true) ∧
    (∀ (o : Oracle) db ids,
      (portfolioBulkDelete o db ids).trace.all Event.callHasNonEmptyId
        = true) := by
  refine ⟨?_, ?_, ?_, ?_, ?_, ?_, ?_⟩
  · intro o db id
    cases hfind : findById db id with
    | none => simp [blogDelete, hfind]
    | some b =>
      by_cases hpid : b.imagePublicId = ""
      · by_cases himg : b.image = ""
        · simp [blogDelete, hfind, hpid, himg, Event.callHasNonEmptyId]
        · cases hext : extractPublicIdFromUrlBlog (JSVal.str b.image) with
          | none =>
            simp [blogDelete, hfind, hpid, himg, hext,
              Event.callHasNonEmptyId]
          | some p =>
            by_cases hp : p = "" <;>
              simp [blogDelete, hfind, hpid, himg, hext, hp,
                Event.callHasNonEmptyId]
      · cases hres : o b.imagePublicId with
        | ret r =>
          by_cases hbad : r ≠ "ok" ∧ r ≠ "not found" <;>
            simp [blogDelete, hfind, hpid, hres, hbad,
              Event.callHasNonEmptyId]
        | exn =>
          simp [blogDelete, hfind, hpid, hres, Event.callHasNonEmptyId]
  · intro db id req
    cases hfind : findById db id with
    | none => simp [blogUpdate, hfind]
    | some b => simp [blogUpdate, hfind, Event.callHasNonEmptyId]
  · intro o db id req
    cases hfind : findById db id with
    | none => simp [teamUpdate, hfind]
    | some t =>
      by_cases hval : teamExpertiseInvalid req
      · simp [teamUpdate, hfind, hval]
      · cases ha : req.avatar with
        | none => simp [teamUpdate, hfind, hval, ha, Event.callHasNonEmptyId]
        | some a =>
          by_cases hcond : a ≠ "" ∧ a ≠ t.avatar ∧ t.avatarPublicId ≠ "" <;>
            simp [teamUpdate, hfind, hval, ha, hcond,
              Event.callHasNonEmptyId]
  · intro o db id
    cases hfind : findById db id with
    | none => simp [teamDelete, hfind]
    | some t =>
      by_cases hpid : t.avatarPublicId = "" <;>
        simp [teamDelete, hfind, hpid, Event.callHasNonEmptyId]
  · intro o db id req
    cases hfind : findById db id with
    | none => simp [portfolioUpdate, hfind]
    | some p =>
      simp only [portfolioUpdate, hfind]
      split <;>
        simp [List.all_append, portfolioRemovedCleanup_all_nonEmpty,
          portfolioMainCleanup_all_nonEmpty, Event.callHasNonEmptyId]
  · intro o db id
    cases hfind : findById db id with
    | none => simp [portfolioDelete, hfind]
    | some p =>
      simp [portfolioDelete, hfind, List.all_append,
        deleteMultipleImages_all_nonEmpty, Event.callHasNonEmptyId]
  · intro o db ids
    by_cases hids : ids.isEmpty
    · simp [portfolioBulkDelete, hids]
    · by_cases hmatch : (db.filter (fun p => p.1 ∈ ids)).isEmpty <;>
        simp [portfolioBulkDelete, hids, hmatch, List.all_append,
          deleteMultipleImages_all_nonEmpty, Event.callHasNonEmptyId]

end Kayease
